import Mathlib

/-!
Shallow embedding of the sploosh SPH fluid-simulation core
(`src/radix_sort.rs`, `src/spatial_lookup.rs`, `src/fluid_simulation.rs`,
`src/compute_task.rs`), together with theorems settling the frozen claims.

Modelling conventions:
* `usize`/`u32` quantities become `Nat`; a `usize` subtraction that can
  underflow (a panic in the source's checked semantics) is modelled by a
  fallible `Option` result.
* `f32` scalars become `ℚ` (exact arithmetic; the numeric claims settled
  here are counting / ordering / clamping facts that are stated by the
  spec independently of rounding).
* GPU buffers indexed by a particle index become functions `ℕ → ℚ` or
  `ℕ → Vec3`; a GPU dispatch becomes a state transformer; the command
  stream becomes a `List` of dispatch tags that each `execute` appends to.
* The WGSL shader files (`src/shaders/*.wgsl`) are referenced by the Rust
  source via `include_str!` but are not present under `src/`; per-thread
  shader bodies are therefore modelled from the spec and marked as such.
-/

namespace Sploosh

/-! ### Workgroup counts (compute-kernel constructions)

Every kernel-construction function in the source computes its workgroup
count by the same two lines, e.g. `RadixSort::create_fill_counters_task`
(src/radix_sort.rs:80-84):
  `let mut workgroup_cnt = key_cnt / 256;`
  `if key_cnt % 256 != 0 { workgroup_cnt += 1; }`
The identical computation appears in `create_reorder_task`
(radix_sort.rs:160-164), `create_spatial_lookup_fill_task`
(spatial_lookup.rs:106-109), `create_spatial_lookup_index_task`
(spatial_lookup.rs:185-188), `create_compute_density_task`
(fluid_simulation.rs:294-297), `create_compute_force_task`
(fluid_simulation.rs:413-416), `create_update_particles_task`
(fluid_simulation.rs:559-562) and `create_display_density_task`
(fluid_simulation.rs:662-665). -/
def workgroupCnt (n : ℕ) : ℕ :=
  if n % 256 ≠ 0 then n / 256 + 1 else n / 256

/-- `create_compute_density_task` covers the non-ghost particles
(fluid_simulation.rs:294). -/
def densityTaskWorkgroups (particleCnt ghostParticleCnt : ℕ) : ℕ :=
  workgroupCnt (particleCnt - ghostParticleCnt)

/-- `create_compute_force_task` covers the non-ghost particles
(fluid_simulation.rs:413). -/
def forceTaskWorkgroups (particleCnt ghostParticleCnt : ℕ) : ℕ :=
  workgroupCnt (particleCnt - ghostParticleCnt)

/-- `create_update_particles_task` covers the non-ghost particles
(fluid_simulation.rs:559). -/
def updateTaskWorkgroups (particleCnt ghostParticleCnt : ℕ) : ℕ :=
  workgroupCnt (particleCnt - ghostParticleCnt)

/-- `create_display_density_task` covers all particles
(fluid_simulation.rs:662). -/
def displayTaskWorkgroups (particleCnt : ℕ) : ℕ := workgroupCnt particleCnt

/-- `create_spatial_lookup_fill_task` covers all particles
(spatial_lookup.rs:106). -/
def spatialFillTaskWorkgroups (particleCnt : ℕ) : ℕ := workgroupCnt particleCnt

/-- `create_spatial_lookup_index_task` covers all particles
(spatial_lookup.rs:185). -/
def spatialIndexTaskWorkgroups (particleCnt : ℕ) : ℕ := workgroupCnt particleCnt

/-- `create_fill_counters_task` covers all keys (radix_sort.rs:80-84). -/
def fillCountersTaskWorkgroups (keyCnt : ℕ) : ℕ := workgroupCnt keyCnt

/-- `create_reorder_task` covers all keys (radix_sort.rs:160-164). -/
def reorderTaskWorkgroups (keyCnt : ℕ) : ℕ := workgroupCnt keyCnt

/-- `create_prescan_task` dispatches a single workgroup for the 256
counters (radix_sort.rs:150: `(1, 1, 1)`). -/
def prescanTaskWorkgroups : ℕ := 1

/-! ### Radix sort (src/radix_sort.rs) -/

/-- `let block_size = 8;` (radix_sort.rs:17). -/
def blockSize : ℕ := 8

/-- `let bin_cnt = 1u64 << block_size;` (radix_sort.rs:18). -/
def binCnt : ℕ := 2 ^ blockSize

/-- Digit extraction `(key >> (pass*B)) & (2^B - 1)`, as in the spec and in
the repository's own host-side check (radix_sort.rs:292-293). -/
def radixDigit (passInd key : ℕ) : ℕ := (key / 2 ^ (blockSize * passInd)) % binCnt

/-- Modelled from the spec: the shaders `rs_fill_counters.wgsl`,
`rs_prescan.wgsl` and `rs_reorder.wgsl` are missing from `src/`.  One
count + exclusive-prefix-scan + scatter round over digit `passInd` is a
stable bucket pass: elements are grouped by digit, buckets in ascending
digit order, elements within a bucket in input order. -/
def radixPass (passInd : ℕ) (keys : List ℕ) : List ℕ :=
  (List.range binCnt).flatMap fun d => keys.filter fun k => radixDigit passInd k = d

/-- Number of digit-block passes executed by `RadixSort::sort`: the source
loops `for pass_ind in 0..1u32` (radix_sort.rs:58). -/
def radixPassCnt : ℕ := 1

/-- Number of passes required by the spec: `ceil(32 / B)` with `B = 8`. -/
def specPassCnt : ℕ := 32 / blockSize

/-- `RadixSort::sort` (radix_sort.rs:57-73): for each executed pass index,
clear counters, count, prescan, reorder, copy back — i.e. apply one digit
pass to the keys buffer. -/
def radixSort (keys : List ℕ) : List ℕ :=
  (List.range radixPassCnt).foldl (fun ks p => radixPass p ks) keys

/-- The same per-pass loop body run for the spec-mandated `ceil(32/B)`
passes (what the spec, and the repository's own `sort` test, require). -/
def radixSortFull (keys : List ℕ) : List ℕ :=
  (List.range specPassCnt).foldl (fun ks p => radixPass p ks) keys

/-- The buffers of the radix-sort module.  `vals` exists only in the spec's
description; in the source the field is commented out (radix_sort.rs:7). -/
inductive RadixBuffer where
  | keys
  | keysOutput
  | counter
  | vals
deriving DecidableEq

/-- Buffer fields actually held by `struct RadixSort` (radix_sort.rs:5-13):
`keys_buffer`, `counter_buffer`, `keys_output_buffer`; the `vals_buffer`
line is a comment. -/
def radixSortFields : List RadixBuffer :=
  [RadixBuffer.keys, RadixBuffer.counter, RadixBuffer.keysOutput]

/-- Bind-group entries of the scatter (reorder) task, bindings 0, 1, 2, in
order (radix_sort.rs:201-214). -/
def reorderBindings : List RadixBuffer :=
  [RadixBuffer.keys, RadixBuffer.keysOutput, RadixBuffer.counter]

/-! ### Command stream (dispatch ordering)

`ComputeTask::execute` (compute_task.rs:71-82) appends exactly one
dispatch to an open command encoder.  The frame orchestration submits
closures that run such `execute` calls in submission order; we model the
stream as a list of dispatch tags and each submission as an append. -/

/-- One GPU dispatch appended to the per-frame command stream. -/
inductive Dispatch where
  /-- fill kernel of the spatial lookup (spatial_lookup.rs:91) -/
  | spatialFill
  /-- a pass of the external `wgpu_sort::GPUSorter` (spatial_lookup.rs:92) -/
  | sortPass (i : ℕ)
  /-- build-index kernel of the spatial lookup (spatial_lookup.rs:93) -/
  | buildIndex
  /-- density kernel (fluid_simulation.rs:738) -/
  | density
  /-- force kernel (fluid_simulation.rs:743) -/
  | force
  /-- integration kernel (fluid_simulation.rs:748) -/
  | integrate
  /-- display-buffer write-out kernel (fluid_simulation.rs:753) -/
  | display
deriving DecidableEq

/-- Modelled from the spec: `RenderEngine::submit_generic_request` is
called by spatial_lookup.rs:69 and fluid_simulation.rs:737-753 but its
definition is not under `src/`; per the spec's command-stream sink
contract, the core appends an ordered block of dispatch operations to the
stream. -/
def submitGeneric (stream ops : List Dispatch) : List Dispatch := stream ++ ops

/-- `SpatialLookup::update_fn` (spatial_lookup.rs:84-95): execute the fill
task, then the external sorter (whatever block of passes it appends), then
the build-index task, in that order on the same encoder. -/
def spatialLookupUpdateOps (sortOps : List Dispatch) : List Dispatch :=
  [Dispatch.spatialFill] ++ sortOps ++ [Dispatch.buildIndex]

/-- The two render requests `FluidSimulation::update` pushes after the
dispatch block, pause or not (fluid_simulation.rs:757-769). -/
inductive RenderReq where
  /-- bounding-box line geometry (fluid_simulation.rs:757-760) -/
  | line
  /-- instanced particle draw sourced from `particle_display_buffer`
      (fluid_simulation.rs:762-769) -/
  | particleDisplay
deriving DecidableEq

/-- `FluidSimulation::update` (fluid_simulation.rs:732-755), dispatch part:
when not paused, submit the spatial-lookup update, then the density, force,
integration and display tasks; when paused, submit nothing. -/
def fluidUpdateOps (sortOps : List Dispatch) (simulationPaused : Bool)
    (stream : List Dispatch) : List Dispatch :=
  if ¬simulationPaused then
    submitGeneric
      (submitGeneric
        (submitGeneric
          (submitGeneric
            (submitGeneric stream (spatialLookupUpdateOps sortOps))
            [Dispatch.density])
          [Dispatch.force])
        [Dispatch.integrate])
      [Dispatch.display]
  else stream

/-- `FluidSimulation::update` (fluid_simulation.rs:757-769), render part:
the line and particle render requests are pushed on every call, outside
the pause guard. -/
def fluidUpdateRenderReqs (renderQueue : List RenderReq) : List RenderReq :=
  renderQueue ++ [RenderReq.line, RenderReq.particleDisplay]

/-! ### Simulation state and per-frame passes (src/fluid_simulation.rs)

The four particle buffers are modelled as functions from the particle
index; each dispatch becomes a state transformer.  The per-thread WGSL
bodies (`compute_density.wgsl`, `compute_force.wgsl`,
`update_particles.wgsl`) are missing from `src/`, so the per-particle
computations are modelled from the spec; the quantities the claims depend
on (which indices are written, and the integrate/clamp rule) are exactly
what the spec states. -/

/-- A 3-vector of exact scalars (the source's `vec4` carries `w = 1`
purely for homogeneous-coordinate layout). -/
abbrev Vec3 : Type := ℚ × ℚ × ℚ

/-- The particle buffers owned by `FluidSimulation` (fluid_simulation.rs:
29-32). -/
structure SimState where
  positions : ℕ → Vec3
  velocities : ℕ → Vec3
  densities : ℕ → ℚ
  forces : ℕ → Vec3

/-- Modelled from the spec: `compute_density.wgsl` is missing from `src/`.
One thread per non-ghost particle accumulates and writes that particle's
density; the first `ghost` slots are never written (the dispatch covers
only `particle_cnt - ghost_particle_cnt` particles,
fluid_simulation.rs:294-297).  The per-particle accumulated value is kept
abstract as `fd` since no settled claim depends on it. -/
def densityPass (ghost : ℕ) (fd : ℕ → SimState → ℚ) (s : SimState) : SimState :=
  { s with densities := fun i => if i < ghost then s.densities i else fd i s }

/-- Modelled from the spec: `compute_force.wgsl` is missing from `src/`.
One thread per non-ghost particle writes that particle's total force; the
first `ghost` slots are never written (fluid_simulation.rs:413-416). -/
def forcePass (ghost : ℕ) (ff : ℕ → SimState → Vec3) (s : SimState) : SimState :=
  { s with forces := fun i => if i < ghost then s.forces i else ff i s }

/-- Modelled from the spec: `update_particles.wgsl` is missing from
`src/`.  Per axis: semi-implicit Euler `v += a*dt`, `p += v*dt`; if the
new position exits `[0, b]`, clamp to the boundary and flip+damp the
velocity component by `-damping`. -/
def axisIntegrate (damping dt b p v a : ℚ) : ℚ × ℚ :=
  let v1 := v + a * dt
  let p1 := p + v1 * dt
  if p1 < 0 then (0, -damping * v1)
  else if b < p1 then (b, -damping * v1)
  else (p1, v1)

/-- Modelled from the spec: the integration dispatch covers one thread per
non-ghost particle (fluid_simulation.rs:559-562); acceleration is
`force / density`, then `axisIntegrate` on each axis. -/
def integratePass (ghost : ℕ) (damping dt : ℚ) (bbox : Vec3) (s : SimState) :
    SimState :=
  { s with
    positions := fun i =>
      if i < ghost then s.positions i
      else
        ((axisIntegrate damping dt bbox.1 (s.positions i).1 (s.velocities i).1
            ((s.forces i).1 / s.densities i)).1,
         (axisIntegrate damping dt bbox.2.1 (s.positions i).2.1
            (s.velocities i).2.1 ((s.forces i).2.1 / s.densities i)).1,
         (axisIntegrate damping dt bbox.2.2 (s.positions i).2.2
            (s.velocities i).2.2 ((s.forces i).2.2 / s.densities i)).1)
    velocities := fun i =>
      if i < ghost then s.velocities i
      else
        ((axisIntegrate damping dt bbox.1 (s.positions i).1 (s.velocities i).1
            ((s.forces i).1 / s.densities i)).2,
         (axisIntegrate damping dt bbox.2.1 (s.positions i).2.1
            (s.velocities i).2.1 ((s.forces i).2.1 / s.densities i)).2,
         (axisIntegrate damping dt bbox.2.2 (s.positions i).2.2
            (s.velocities i).2.2 ((s.forces i).2.2 / s.densities i)).2) }

/-- One unpaused frame of `FluidSimulation::update` acting on the particle
buffers, in submission order: density pass, force pass, integration pass
(the spatial-lookup passes write only the key/value/index buffers, and the
display pass writes only the display buffer — neither touches these four
buffers). -/
def frameStep (ghost : ℕ) (fd : ℕ → SimState → ℚ) (ff : ℕ → SimState → Vec3)
    (damping dt : ℚ) (bbox : Vec3) (s : SimState) : SimState :=
  integratePass ghost damping dt bbox (forcePass ghost ff (densityPass ghost fd s))

/-- Initial buffer contents from `FluidSimulation::new`: densities all
`rest_density` (fluid_simulation.rs:63), velocities all zero
(fluid_simulation.rs:76), forces in a freshly created (zero-initialised)
buffer (fluid_simulation.rs:69-74). -/
def initState (positions0 : ℕ → Vec3) (restDensity : ℚ) : SimState :=
  { positions := positions0
    velocities := fun _ => (0, 0, 0)
    densities := fun _ => restDensity
    forces := fun _ => (0, 0, 0) }

/-! ### Particle start positions (fluid_simulation.rs:221-279) -/

/-- `let squeeze_const = 0.55;` (fluid_simulation.rs:228); `0.55` taken
exactly. -/
def squeezeConst : ℚ := 11 / 20

/-- `let num_ghost_layers = 2;` (fluid_simulation.rs:229). -/
def numGhostLayers : ℕ := 2

/-- The values taken by the loop `while x < b { ...; x += step }` starting
from `x`, in order (the ghost-layer loops of fluid_simulation.rs:232-245).
The source only runs this with a positive step; a non-positive step (which
would not terminate in the source) yields the empty list here. -/
def whileIter (step b x : ℚ) : List ℚ :=
  if h : 0 < step ∧ x < b then x :: whileIter step b (x + step) else []
termination_by (⌈(b - x) / step⌉).toNat
decreasing_by
  have hs : (0:ℚ) < step := h.1
  have hx : x < b := h.2
  have h1 : (b - (x + step)) / step = (b - x) / step - 1 := by
    field_simp
    ring
  have h2 : (0:ℚ) < (b - x) / step := div_pos (by linarith) hs
  have h3 : (1:ℤ) ≤ ⌈(b - x) / step⌉ := Int.ceil_pos.mpr h2
  have h4 : ⌈(b - (x + step)) / step⌉ = ⌈(b - x) / step⌉ - 1 := by
    rw [h1]
    exact_mod_cast Int.ceil_sub_int ((b - x) / step) 1
  simp only [h4]
  omega

/-- The static boundary ("ghost") positions: two horizontal layers tiling
the box floor with spacing `smoothing_radius * squeeze_const`
(fluid_simulation.rs:231-246); outer loop over layers, then `x`, then `z`,
pushing `(x, i * r * squeeze_const, z)`. -/
def ghostPositions (r bx bz : ℚ) : List Vec3 :=
  (List.range numGhostLayers).flatMap fun i =>
    (whileIter (r * squeezeConst) bx 0).flatMap fun x =>
      (whileIter (r * squeezeConst) bz 0).map fun z =>
        (x, (i : ℚ) * r * squeezeConst, z)

/-- `ghost_particle_cnt = positions.len()` after the ghost layers
(fluid_simulation.rs:248). -/
def ghostCount (r bx bz : ℚ) : ℕ := (ghostPositions r bx bz).length

/-- `ceil(powf(m, 1/3))` (fluid_simulation.rs:249-252), idealised to the
exact integer cube-root ceiling: the least `n` with `m ≤ n ^ 3`. -/
def cbrtCeil (m : ℕ) : ℕ :=
  Nat.find (⟨m, Nat.le_self_pow three_ne_zero m⟩ : ∃ n, m ≤ n ^ 3)

/-- The jittered `n × n × n` fluid block (fluid_simulation.rs:255-276),
in push order (`i` outermost, then `j`, then `k`); the per-push random
jitter is a parameter. -/
def fluidGrid (n : ℕ) (step half bx by2 bz : ℚ) (jitter : ℕ → ℕ → ℕ → Vec3) :
    List Vec3 :=
  (List.range n).flatMap fun i =>
    (List.range n).flatMap fun j =>
      (List.range n).map fun k =>
        ((j : ℚ) * step + (jitter i j k).1 - half + bx / 2,
         (i : ℚ) * step + (jitter i j k).2.1 - half + by2 / 2,
         (k : ℚ) * step + (jitter i j k).2.2 - half + bz / 2)

/-- `FluidSimulation::particle_start_positions` (fluid_simulation.rs:
221-279).  The two `usize` subtractions that underflow when the ghost
layers meet or exceed the requested particle count —
`particle_cnt - ghost_particle_cnt` (line 250) and `n - 1` (line 253) —
are modelled as failure (`none`); the `break 'outer` once
`positions.len() >= particle_cnt` (line 271-273) becomes `take`. -/
def particleStartPositions (particleCnt : ℕ) (r : ℚ) (bbox : Vec3)
    (jitter : ℕ → ℕ → ℕ → Vec3) : Option (List Vec3 × ℕ) :=
  let ghosts := ghostPositions r bbox.1 bbox.2.2
  let g := ghosts.length
  if particleCnt < g then none
  else
    let m := particleCnt - g
    let n := cbrtCeil m
    if n = 0 then none
    else
      let step := r * squeezeConst
      let half := ((n - 1 : ℕ) : ℚ) * step / 2
      some (ghosts ++ (fluidGrid n step half bbox.1 bbox.2.1 bbox.2.2 jitter).take m, g)

/-- `FluidSimulation::new` initialises the density buffer with
`vec![rest_density; particle_cnt]` (fluid_simulation.rs:63). -/
def newDensities (particleCnt : ℕ) (restDensity : ℚ) : List ℚ :=
  List.replicate particleCnt restDensity

/-- `FluidSimulation::new` initialises the velocity buffer with
`particle_cnt` zero vectors (fluid_simulation.rs:76). -/
def newVelocities (particleCnt : ℕ) : List Vec3 :=
  List.replicate particleCnt (0, 0, 0)

/-- Element count of the force buffer: `particle_cnt * size_of::<Vector4>`
bytes (fluid_simulation.rs:71), i.e. `particle_cnt` vectors. -/
def forceBufferElemCnt (particleCnt : ℕ) : ℕ := particleCnt

/-- Element count of the display buffer: `particle_cnt *
size_of::<ColoredVertex>` bytes (fluid_simulation.rs:85). -/
def displayBufferElemCnt (particleCnt : ℕ) : ℕ := particleCnt

/-! ### Shared helper lemmas -/

/-- A component of a position lies in the closed box interval. -/
def inInterval (b p : ℚ) : Prop := 0 ≤ p ∧ p ≤ b

/-- All three components of a position lie inside the box. -/
def inBox (bbox p : Vec3) : Prop :=
  inInterval bbox.1 p.1 ∧ inInterval bbox.2.1 p.2.1 ∧ inInterval bbox.2.2 p.2.2

theorem workgroupCnt_eq_ceil (n : ℕ) : workgroupCnt n = (n + 255) / 256 := by
  unfold workgroupCnt
  split <;> omega

theorem count_flatMap {α β : Type} [DecidableEq α] (l : List β) (f : β → List α)
    (a : α) : ((l.flatMap f).count a) = (l.map fun b => (f b).count a).sum := by
  induction l with
  | nil => simp
  | cons b t ih => simp [List.flatMap_cons, List.count_append, ih]

theorem sum_map_ite_range (n c x : ℕ) (hx : x < n) :
    ((List.range n).map fun d => if x = d then c else 0).sum = c := by
  induction n with
  | zero => omega
  | succ n ih =>
    rw [List.range_succ, List.map_append, List.sum_append]
    by_cases h : x = n
    · subst h
      have hz : ((List.range x).map fun d => if x = d then c else 0).sum = 0 := by
        apply List.sum_eq_zero
        intro y hy
        simp only [List.mem_map, List.mem_range] at hy
        obtain ⟨d, hd, rfl⟩ := hy
        simp [Nat.ne_of_gt hd]
      simp [hz]
    · have hx2 : x < n := by omega
      simp [ih hx2, h]

theorem radixDigit_lt (p k : ℕ) : radixDigit p k < binCnt :=
  Nat.mod_lt _ (by norm_num [binCnt, blockSize])

/-- One count/prescan/scatter round permutes the keys: every key lands in
exactly one digit bucket. -/
theorem radixPass_perm (p : ℕ) (ks : List ℕ) : (radixPass p ks).Perm ks := by
  rw [List.perm_iff_count]
  intro a
  rw [radixPass, count_flatMap]
  have hstep : ∀ d : ℕ,
      (ks.filter fun k => radixDigit p k = d).count a =
        if radixDigit p a = d then ks.count a else 0 := by
    intro d
    by_cases h : radixDigit p a = d
    · rw [if_pos h, List.count_filter]
      simp [h]
    · rw [if_neg h, List.count_eq_zero]
      intro hmem
      have := List.of_mem_filter hmem
      simp at this
      exact h this
  calc ((List.range binCnt).map fun d =>
          (ks.filter fun k => radixDigit p k = d).count a).sum
      = ((List.range binCnt).map fun d =>
          if radixDigit p a = d then ks.count a else 0).sum := by
        congr 1
        exact List.map_congr_left fun d _ => hstep d
    _ = ks.count a := sum_map_ite_range _ _ _ (radixDigit_lt p a)

theorem sum_map_const_nat {α : Type} (l : List α) (c : ℕ) (f : α → ℕ)
    (hf : ∀ a ∈ l, f a = c) : (l.map f).sum = l.length * c := by
  induction l with
  | nil => simp
  | cons b t ih =>
    have hb := hf b (by simp)
    rw [List.map_cons, List.sum_cons, ih fun a ha => hf a (by simp [ha])]
    simp [hb, Nat.succ_mul, Nat.add_comm]

theorem fluidGrid_length (n : ℕ) (step half bx by2 bz : ℚ)
    (jitter : ℕ → ℕ → ℕ → Vec3) :
    (fluidGrid n step half bx by2 bz jitter).length = n * n * n := by
  rw [fluidGrid, List.length_flatMap]
  rw [sum_map_const_nat _ (n * n)]
  · simp [Nat.mul_assoc]
  · intro i _
    simp only [Function.comp_apply]
    rw [List.length_flatMap, sum_map_const_nat _ n]
    · simp
    · intro j _
      simp

theorem cbrtCeil_spec (m : ℕ) : m ≤ cbrtCeil m ^ 3 :=
  Nat.find_spec (⟨m, Nat.le_self_pow three_ne_zero m⟩ : ∃ n, m ≤ n ^ 3)

theorem cbrtCeil_zero : cbrtCeil 0 = 0 := by
  rw [cbrtCeil, Nat.find_eq_iff]
  decide

theorem cbrtCeil_eq_zero_imp (m : ℕ) (h : cbrtCeil m = 0) : m = 0 := by
  have := cbrtCeil_spec m
  rw [h] at this
  omega

theorem axisIntegrate_mem (damping dt b p v a : ℚ) (hb : 0 ≤ b) :
    inInterval b (axisIntegrate damping dt b p v a).1 := by
  rw [axisIntegrate, inInterval]
  split_ifs with h1 h2 <;> constructor <;> simp <;> linarith

/-! ### Claim theorems -/

/-- C8: every compute-kernel construction computes its workgroup count as
`ceil(n / 256)` of the element count it must cover — the non-ghost
particle count for the density/force/integration kernels, the total
particle count for the spatial fill/index and display kernels, the key
count for the radix-sort count and scatter kernels, and the 256 counter
bins for the single-workgroup prescan; the count never rounds down
(`256 * count` covers all `n` elements) and is nonzero whenever
`n > 0`. -/
theorem workgroup_counts_round_up (n particleCnt ghostParticleCnt keyCnt : ℕ) :
    workgroupCnt n = (n + 255) / 256 ∧
    n ≤ 256 * workgroupCnt n ∧
    (0 < n → 0 < workgroupCnt n) ∧
    densityTaskWorkgroups particleCnt ghostParticleCnt =
      (particleCnt - ghostParticleCnt + 255) / 256 ∧
    forceTaskWorkgroups particleCnt ghostParticleCnt =
      (particleCnt - ghostParticleCnt + 255) / 256 ∧
    updateTaskWorkgroups particleCnt ghostParticleCnt =
      (particleCnt - ghostParticleCnt + 255) / 256 ∧
    displayTaskWorkgroups particleCnt = (particleCnt + 255) / 256 ∧
    spatialFillTaskWorkgroups particleCnt = (particleCnt + 255) / 256 ∧
    spatialIndexTaskWorkgroups particleCnt = (particleCnt + 255) / 256 ∧
    fillCountersTaskWorkgroups keyCnt = (keyCnt + 255) / 256 ∧
    reorderTaskWorkgroups keyCnt = (keyCnt + 255) / 256 ∧
    prescanTaskWorkgroups = (binCnt + 255) / 256 := by
  refine ⟨workgroupCnt_eq_ceil n, ?_, ?_, ?_, ?_, ?_, ?_, ?_, ?_, ?_, ?_, ?_⟩
  · rw [workgroupCnt_eq_ceil]; omega
  · rw [workgroupCnt_eq_ceil]; omega
  all_goals
    simp only [densityTaskWorkgroups, forceTaskWorkgroups, updateTaskWorkgroups,
      displayTaskWorkgroups, spatialFillTaskWorkgroups, spatialIndexTaskWorkgroups,
      fillCountersTaskWorkgroups, reorderTaskWorkgroups, prescanTaskWorkgroups,
      workgroupCnt_eq_ceil, binCnt, blockSize]
  decide

/-- Witness for `workgroup_counts_round_up`: at `n = 1` the hypothesis of
the inner implication holds and the workgroup count is positive. -/
theorem workgroup_counts_round_up_witness : 0 < 1 ∧ 0 < workgroupCnt 1 :=
  ⟨by decide, (workgroup_counts_round_up 1 0 0 0).2.2.1 (by decide)⟩

set_option maxRecDepth 8000 in
/-- C1 (code bug): `RadixSort::sort` executes `for pass_ind in 0..1u32` —
a single 8-bit digit pass instead of the `ceil(32/8) = 4` the claim (and
the repository's own `sort` test, which draws 10-bit keys and asserts a
fully sorted result) requires.  On the input keys `[256, 1]` the single
executed pass leaves the buffer as `[256, 1]`, not ascending; the same
per-pass loop body run for all 4 spec-mandated passes does sort it. -/
theorem radix_sort_single_pass_unsorted :
    radixPassCnt = 1 ∧ specPassCnt = 4 ∧
    radixSort [256, 1] = [256, 1] ∧
    radixSortFull [256, 1] = [1, 256] := by
  refine ⟨rfl, by decide, by decide, by decide⟩

/-- C2 counterexample: the claim says the scatter pass writes each
`(key, value)` pair together, which requires a values buffer among the
reorder bind-group entries (and a values-buffer field in `RadixSort`);
neither exists in the source — the field is commented out. -/
theorem radix_reorder_binds_no_vals :
    ¬(RadixBuffer.vals ∈ reorderBindings ∨ RadixBuffer.vals ∈ radixSortFields) := by
  decide

/-- C2 (amended): the parallel radix sort of `src/radix_sort.rs` is a
keys-only sort: `struct RadixSort` holds the keys, counter and keys-output
buffers only (the values-buffer field is commented out), the scatter pass
binds exactly keys, keys-output and counters, and each digit pass permutes
the keys buffer alone — no paired value travels with a key. -/
theorem radix_sort_keys_only :
    radixSortFields = [RadixBuffer.keys, RadixBuffer.counter, RadixBuffer.keysOutput] ∧
    reorderBindings = [RadixBuffer.keys, RadixBuffer.keysOutput, RadixBuffer.counter] ∧
    RadixBuffer.vals ∉ radixSortFields ∧
    RadixBuffer.vals ∉ reorderBindings ∧
    ∀ p ks, (radixPass p ks).Perm ks := by
  exact ⟨rfl, rfl, by decide, by decide, radixPass_perm⟩

/-- C3: `SpatialLookup::update_fn` appends to the command stream, in
strict order and with nothing interleaved, the fill dispatch, then the
whole block of sorter passes, then the build-index dispatch. -/
theorem spatial_lookup_update_order (sortOps stream : List Dispatch) :
    submitGeneric stream (spatialLookupUpdateOps sortOps) =
      stream ++ [Dispatch.spatialFill] ++ sortOps ++ [Dispatch.buildIndex] := by
  simp [submitGeneric, spatialLookupUpdateOps]

/-- C4: on an unpaused frame, `FluidSimulation::update` appends to the
command stream, in this exact order, the spatial-lookup rebuild (fill,
sorter passes, build-index), then the density pass, then the force pass,
then the integration pass, then the display write-out. -/
theorem fluid_update_dispatch_order (sortOps stream : List Dispatch) :
    fluidUpdateOps sortOps false stream =
      stream ++ [Dispatch.spatialFill] ++ sortOps ++
        [Dispatch.buildIndex, Dispatch.density, Dispatch.force,
         Dispatch.integrate, Dispatch.display] := by
  simp [fluidUpdateOps, submitGeneric, spatialLookupUpdateOps]

/-- C5: calling the per-frame update with `paused = true`, any number of
times in succession, queues no physics dispatch and hence changes none of
the particle buffers — for every interpretation `sem` of dispatches as
state transformers, iterating the paused frame fixes the state — while
the particle-display draw request is still submitted on every call. -/
theorem paused_update_noop (sortOps stream : List Dispatch)
    (sem : Dispatch → SimState → SimState) (s : SimState) (k : ℕ)
    (renderQueue : List RenderReq) :
    fluidUpdateOps sortOps true stream = stream ∧
    (fun st => (fluidUpdateOps sortOps true []).foldl (fun a op => sem op a) st)^[k] s
      = s ∧
    fluidUpdateRenderReqs renderQueue =
      renderQueue ++ [RenderReq.line, RenderReq.particleDisplay] ∧
    RenderReq.particleDisplay ∈ fluidUpdateRenderReqs renderQueue := by
  have hops : ∀ stream2, fluidUpdateOps sortOps true stream2 = stream2 := by
    intro stream2
    simp [fluidUpdateOps]
  refine ⟨hops stream, ?_, rfl, by simp [fluidUpdateRenderReqs]⟩
  have hfun : (fun st => (fluidUpdateOps sortOps true []).foldl
      (fun a op => sem op a) st) = id := by
    funext st
    simp [hops]
  rw [hfun, Function.iterate_id, id]

/-- C6: ghost-particle buffer slots are never written: for every number of
frames `k` and every ghost index `i < ghost`, the density stays at its
initial `rest_density`, the velocity stays at its initial zero, the force
stays at its initial (zero-initialised) value, and the position is
untouched — the density/force/integration dispatches cover only the
`particle_cnt - ghost_particle_cnt` non-ghost particles. -/
theorem ghost_slots_never_written (ghost : ℕ) (fd : ℕ → SimState → ℚ)
    (ff : ℕ → SimState → Vec3) (damping dt : ℚ) (bbox : Vec3)
    (positions0 : ℕ → Vec3) (restDensity : ℚ) (k i : ℕ) (hi : i < ghost) :
    ((frameStep ghost fd ff damping dt bbox)^[k]
        (initState positions0 restDensity)).densities i = restDensity ∧
    ((frameStep ghost fd ff damping dt bbox)^[k]
        (initState positions0 restDensity)).velocities i = (0, 0, 0) ∧
    ((frameStep ghost fd ff damping dt bbox)^[k]
        (initState positions0 restDensity)).forces i = (0, 0, 0) ∧
    ((frameStep ghost fd ff damping dt bbox)^[k]
        (initState positions0 restDensity)).positions i = positions0 i := by
  induction k with
  | zero => simp [initState]
  | succ k ih =>
    rw [Function.iterate_succ_apply']
    obtain ⟨ihd, ihv, ihf, ihp⟩ := ih
    refine ⟨?_, ?_, ?_, ?_⟩ <;>
      simp [frameStep, densityPass, forcePass, integratePass, hi, ihd, ihv, ihf, ihp]

/-- Witness for `ghost_slots_never_written` at a concrete configuration:
ghost count 1, index 0, two frames. -/
theorem ghost_slots_never_written_witness :
    0 < 1 ∧
    ((frameStep 1 (fun _ _ => 5) (fun _ _ => (1, 2, 3)) (1/2) 1 (1, 1, 1))^[2]
        (initState (fun _ => (0, 0, 0)) 3)).densities 0 = 3 :=
  ⟨by decide,
    (ghost_slots_never_written 1 (fun _ _ => 5) (fun _ _ => (1, 2, 3)) (1/2) 1
      (1, 1, 1) (fun _ => (0, 0, 0)) 3 2 0 (by decide)).1⟩

/-- C9: boundary containment.  For every number of integration frames from
any initial state whose non-ghost positions lie inside the box (and any
nonnegative box), every non-ghost particle's position stays within
`[0, bbox]` on all three axes; moreover whenever the semi-implicit Euler
step takes a coordinate below `0` (resp. above the box bound) it is
clamped to that boundary and the velocity component becomes
`-damping * v`. -/
theorem boundary_containment (ghost : ℕ) (fd : ℕ → SimState → ℚ)
    (ff : ℕ → SimState → Vec3) (damping dt : ℚ) (bbox : Vec3)
    (positions0 : ℕ → Vec3) (restDensity : ℚ) (k i : ℕ) (hi : ghost ≤ i)
    (hbx : 0 ≤ bbox.1) (hby : 0 ≤ bbox.2.1) (hbz : 0 ≤ bbox.2.2)
    (hinit : inBox bbox (positions0 i)) :
    inBox bbox
      (((frameStep ghost fd ff damping dt bbox)^[k]
          (initState positions0 restDensity)).positions i) ∧
    (∀ b p v a : ℚ, p + (v + a * dt) * dt < 0 →
      axisIntegrate damping dt b p v a = (0, -damping * (v + a * dt))) ∧
    (∀ b p v a : ℚ, ¬(p + (v + a * dt) * dt < 0) → b < p + (v + a * dt) * dt →
      axisIntegrate damping dt b p v a = (b, -damping * (v + a * dt))) := by
  refine ⟨?_, ?_, ?_⟩
  · have hstep : ∀ s : SimState,
        inBox bbox ((frameStep ghost fd ff damping dt bbox s).positions i) := by
      intro s
      have hni : ¬ i < ghost := by omega
      simp only [frameStep, integratePass, hni, if_false]
      exact ⟨axisIntegrate_mem _ _ _ _ _ _ hbx, axisIntegrate_mem _ _ _ _ _ _ hby,
        axisIntegrate_mem _ _ _ _ _ _ hbz⟩
    cases k with
    | zero => simpa [initState] using hinit
    | succ k =>
      rw [Function.iterate_succ_apply']
      exact hstep _
  · intro b p v a h1
    rw [axisIntegrate]
    simp only [h1, if_true]
  · intro b p v a h1 h2
    rw [axisIntegrate]
    simp only [h1, h2, if_false, if_true]

/-- Witness for `boundary_containment` at a concrete configuration. -/
theorem boundary_containment_witness :
    (0 ≤ (1:ℚ) ∧ inBox (1, 1, 1) ((0:ℚ), (0:ℚ), (0:ℚ))) ∧
    inBox (1, 1, 1)
      (((frameStep 0 (fun _ _ => 5) (fun _ _ => (1, 2, 3)) (1/2) 1 (1, 1, 1))^[1]
          (initState (fun _ => (0, 0, 0)) 3)).positions 0) :=
  ⟨⟨by norm_num, by constructor <;> constructor <;> norm_num [inInterval]⟩,
    (boundary_containment 0 (fun _ _ => 5) (fun _ _ => (1, 2, 3)) (1/2) 1
      (1, 1, 1) (fun _ => (0, 0, 0)) 3 1 0 (by omega) (by norm_num) (by norm_num)
      (by norm_num)
      (by constructor <;> constructor <;> norm_num [inInterval])).1⟩

/-! ### Concrete evaluations of the start-position generator

A box of extent `1/2` with smoothing radius `1` gives floor-layer spacing
`0.55`, hence one `x` step and one `z` step per layer: two ghost
particles. -/

theorem whileIter_half_box : whileIter (11/20) (1/2) 0 = [0] := by
  rw [whileIter]
  norm_num
  rw [whileIter]
  norm_num

theorem ghostPositions_half_box :
    ghostPositions 1 (1/2) (1/2) = [(0, 0, 0), (0, 11/20, 0)] := by
  rw [ghostPositions]
  norm_num [squeezeConst, whileIter_half_box, numGhostLayers, List.range_succ]

theorem cbrtCeil_one : cbrtCeil 1 = 1 := by
  rw [cbrtCeil, Nat.find_eq_iff]
  decide

/-- Requesting 2 particles in the half box: the two floor layers already
hold 2 ghosts, `particle_cnt - ghost_particle_cnt = 0`, and the `n - 1`
subtraction underflows: construction fails. -/
theorem startPositions_two_particles_none :
    particleStartPositions 2 1 (1/2, 1/2, 1/2) (fun _ _ _ => (0, 0, 0)) = none := by
  rw [particleStartPositions]
  norm_num [ghostPositions_half_box, cbrtCeil_zero]

/-- Requesting 3 particles in the half box: 2 ghosts plus one fluid
particle at the box centre. -/
theorem startPositions_three_particles :
    particleStartPositions 3 1 (1/2, 1/2, 1/2) (fun _ _ _ => (0, 0, 0)) =
      some ([(0, 0, 0), (0, 11/20, 0), (1/4, 1/4, 1/4)], 2) := by
  rw [particleStartPositions]
  norm_num [ghostPositions_half_box, cbrtCeil_one, fluidGrid, squeezeConst,
    List.range_succ]

/-- C7: whenever `particle_start_positions` completes (no `usize`
underflow — the only way `FluidSimulation::new` can accept the
configuration, since `new` performs no explicit validation), the returned
ghost count is the two-floor-layer count and is strictly below the
configured particle count; conversely every configuration whose
floor-layer count is strictly below the particle count is accepted. -/
theorem accepted_config_ghost_lt_particle_cnt (particleCnt : ℕ) (r : ℚ)
    (bbox : Vec3) (jitter : ℕ → ℕ → ℕ → Vec3) :
    (∀ ps g, particleStartPositions particleCnt r bbox jitter = some (ps, g) →
      g = ghostCount r bbox.1 bbox.2.2 ∧ g < particleCnt) ∧
    (ghostCount r bbox.1 bbox.2.2 < particleCnt →
      (particleStartPositions particleCnt r bbox jitter).isSome) := by
  simp only [particleStartPositions, ghostCount]
  split_ifs with h1 h2
  · refine ⟨fun ps g h => by simp at h, fun hlt => absurd hlt (by omega)⟩
  · refine ⟨fun ps g h => by simp at h, fun hlt => ?_⟩
    exact absurd hlt (by have := cbrtCeil_eq_zero_imp _ h2; omega)
  · refine ⟨fun ps g h => ?_, fun _ => by simp⟩
    simp only [Option.some.injEq, Prod.mk.injEq] at h
    obtain ⟨-, hg⟩ := h
    subst hg
    have hne : particleCnt - (ghostPositions r bbox.1 bbox.2.2).length ≠ 0 :=
      fun h0 => h2 (by rw [h0, cbrtCeil_zero])
    exact ⟨rfl, by omega⟩

/-- Witness for `accepted_config_ghost_lt_particle_cnt`: the 3-particle
half-box configuration is accepted with 2 ghosts, and `2 < 3`. -/
theorem accepted_config_ghost_lt_particle_cnt_witness :
    particleStartPositions 3 1 (1/2, 1/2, 1/2) (fun _ _ _ => (0, 0, 0)) =
      some ([(0, 0, 0), (0, 11/20, 0), (1/4, 1/4, 1/4)], 2) ∧ 2 < 3 :=
  ⟨startPositions_three_particles,
    ((accepted_config_ghost_lt_particle_cnt 3 1 (1/2, 1/2, 1/2)
        (fun _ _ _ => (0, 0, 0))).1 _ 2 startPositions_three_particles).2⟩

/-- C10 counterexample: under the claimed precondition
`ghost_particle_cnt ≤ particle_cnt` taken with equality (2 ghosts, 2
requested particles in the half box), `particle_start_positions` does not
return a `particle_cnt`-length vector — the `n - 1` `usize` subtraction
underflows and the construction fails. -/
theorem start_positions_equal_counts_fail :
    ghostCount 1 (1/2) (1/2) = 2 ∧ (2:ℕ) ≤ 2 ∧
    particleStartPositions 2 1 (1/2, 1/2, 1/2) (fun _ _ _ => (0, 0, 0)) = none :=
  ⟨by rw [ghostCount, ghostPositions_half_box]; rfl, le_refl 2,
    startPositions_two_particles_none⟩

/-- C10 (amended): under the strict precondition `ghost_particle_cnt <
particle_cnt` — equivalently whenever the construction completes —
`particle_start_positions` returns exactly `particle_cnt` positions with
the ghost layer occupying the leading `ghost_particle_cnt` slots and fluid
positions filling the rest, matching the `particle_cnt`-element density,
velocity, force and display buffers allocated by `new`; at equality the
`n - 1` subtraction underflows instead. -/
theorem start_positions_count_and_layout (particleCnt : ℕ) (r : ℚ)
    (bbox : Vec3) (jitter : ℕ → ℕ → ℕ → Vec3) (restDensity : ℚ)
    (ps : List Vec3) (g : ℕ)
    (h : particleStartPositions particleCnt r bbox jitter = some (ps, g)) :
    ps.length = particleCnt ∧
    ps.take g = ghostPositions r bbox.1 bbox.2.2 ∧
    g < particleCnt ∧
    (newDensities particleCnt restDensity).length = particleCnt ∧
    (newVelocities particleCnt).length = particleCnt ∧
    forceBufferElemCnt particleCnt = particleCnt ∧
    displayBufferElemCnt particleCnt = particleCnt := by
  simp only [particleStartPositions] at h
  split_ifs at h with h1 h2
  simp only [Option.some.injEq, Prod.mk.injEq] at h
  obtain ⟨hps, hg⟩ := h
  subst hg
  have hm : particleCnt - (ghostPositions r bbox.1 bbox.2.2).length ≤
      cbrtCeil (particleCnt - (ghostPositions r bbox.1 bbox.2.2).length) ^ 3 :=
    cbrtCeil_spec _
  have hne : particleCnt - (ghostPositions r bbox.1 bbox.2.2).length ≠ 0 :=
    fun h0 => h2 (by rw [h0, cbrtCeil_zero])
  refine ⟨?_, ?_, by omega, by simp [newDensities], by simp [newVelocities],
    rfl, rfl⟩
  · rw [← hps, List.length_append, List.length_take, fluidGrid_length]
    have : cbrtCeil (particleCnt - (ghostPositions r bbox.1 bbox.2.2).length) ^ 3 =
        cbrtCeil (particleCnt - (ghostPositions r bbox.1 bbox.2.2).length) *
          cbrtCeil (particleCnt - (ghostPositions r bbox.1 bbox.2.2).length) *
          cbrtCeil (particleCnt - (ghostPositions r bbox.1 bbox.2.2).length) := by
      ring
    omega
  · rw [← hps, List.take_left]

/-- Witness for `start_positions_count_and_layout` at the accepted
3-particle half-box configuration. -/
theorem start_positions_count_and_layout_witness :
    particleStartPositions 3 1 (1/2, 1/2, 1/2) (fun _ _ _ => (0, 0, 0)) =
      some ([(0, 0, 0), (0, 11/20, 0), (1/4, 1/4, 1/4)], 2) ∧
    ([((0:ℚ), (0:ℚ), (0:ℚ)), (0, 11/20, 0), (1/4, 1/4, 1/4)] : List Vec3).length = 3 :=
  ⟨startPositions_three_particles,
    (start_positions_count_and_layout 3 1 (1/2, 1/2, 1/2) (fun _ _ _ => (0, 0, 0))
      3 _ 2 startPositions_three_particles).1⟩

end Sploosh
